import Mathlib

/-!
# Verification of the webviz-subsurface plugin pair

Shallow embedding of the two source files
`plugins/_ahm_analysis_plugin.py` and
`plugins/_property_statistics/models/simulation_timeseries_model.py`,
together with theorems settling the behavioural claims about them.

Numeric CSV cells are modelled as `Rat` (a missing value / NaN as
`Option.none` before the `replace(np.nan, 0.0)` step), dataframes as
explicit lists of rows or association lists of named columns, and the
Dash callbacks as pure functions from the plugin state and the file
environment to the components they return.  A Python exception is
modelled as `Option.none` / `Except.error`.
-/

set_option autoImplicit false

namespace Webviz

/-- `needle` occurs contiguously in a list. -/
def listInfix {α : Type} [BEq α] (needle : List α) : List α → Bool
  | [] => needle.isEmpty
  | a :: as => needle.isPrefixOf (a :: as) || listInfix needle as

/-- Python's substring test `needle in hay` on strings: `needle` occurs
contiguously inside `hay`. -/
def strContains (hay needle : String) : Bool :=
  listInfix needle.toList hay.toList

/-- Boolean lexicographic order on strings, used to model how pandas
sorts string labels (`sort_index`, sorted `groupby` keys). -/
def strLe (a b : String) : Bool := decide (a ≤ b)

/-- Boolean order on rationals, for pandas numeric sorts. -/
def ratLe (a b : Rat) : Bool := decide (a ≤ b)

/-- Boolean order on integers, for sorted integer `groupby` keys. -/
def intLe (a b : Int) : Bool := decide (a ≤ b)

/-- Stable insertion of an element into a sorted list: the element is
placed before the first entry it compares `le` to.  Structural, so that
concrete instances reduce inside the kernel. -/
def insertSorted {α : Type} (le : α → α → Bool) (a : α) : List α → List α
  | [] => [a]
  | b :: bs => if le a b then a :: b :: bs else b :: insertSorted le a bs

/-- Stable insertion sort; models pandas ascending label/value sorts. -/
def sortBy {α : Type} (le : α → α → Bool) : List α → List α
  | [] => []
  | a :: as => insertSorted le a (sortBy le as)

/-- The sorted distinct keys of a list of labels, as produced by a
pandas `groupby` (groups are enumerated in ascending key order). -/
def sortedKeys (l : List String) : List String := sortBy strLe l.dedup

/-- The sorted distinct keys of a list of integers (`groupby("REAL")`). -/
def sortedIntKeys (l : List Int) : List Int := sortBy intLe l.dedup

/-- Maximum of a list of rationals (`Series.max`); 0 on the empty list,
which the call sites never produce. -/
def listMax : List Rat → Rat
  | [] => 0
  | x :: xs => xs.foldl max x

/-- Minimum of a list of rationals (`Series.min`). -/
def listMin : List Rat → Rat
  | [] => 0
  | x :: xs => xs.foldl min x

/-- Arithmetic mean of a list of rationals (`GroupBy.mean` on a
NaN-free column). -/
def meanRat (l : List Rat) : Rat := l.sum / (l.length : Rat)

/-- Linear-interpolation quantile of a list of rationals, the default
`interpolation="linear"` semantics of `GroupBy.quantile(q=...)`:
with the values sorted ascending and `h = q * (n - 1)`, the result is
`s[⌊h⌋] + (h - ⌊h⌋) * (s[⌊h⌋ + 1] - s[⌊h⌋])`. -/
def quantileRat (q : Rat) (l : List Rat) : Rat :=
  match sortBy ratLe l with
  | [] => 0
  | s@(_ :: _) =>
    let h : Rat := q * ((s.length - 1 : Nat) : Rat)
    let i : Nat := h.floor.toNat
    let lo := s.getD i 0
    let hi := s.getD (i + 1) lo
    lo + (h - (i : Rat)) * (hi - lo)

/-! ## The AHM-analysis plugin (`_ahm_analysis_plugin.py`)

`ks.csv` is modelled by `KsTable`: the column labels (observations),
the index labels (parameters), and an entry function where `none`
stands for a NaN cell of the CSV.  `active_obs_info.csv` contributes
its `"ratio"` row, a string per observation; `misfit_obs_info.csv`
its `"misfit"` row, a number per observation. -/

/-- The `ks.csv` table: observation columns, parameter index, and the
cell contents (`none` = NaN in the CSV). -/
structure KsTable where
  cols : List String
  idx : List String
  entry : String → String → Option Rat

/-- A cell of `ks.csv` after `.replace(np.nan, 0.0)`. -/
def KsTable.entryR (ks : KsTable) (param obs : String) : Rat :=
  (ks.entry param obs).getD 0

/-- `set_inputfilter`: "set the input filter to show all data if empty". -/
def set_inputfilter (input_filter : String) : String :=
  if input_filter = "" then "_" else input_filter

/-- `get_listtoplot`: the observation columns to plot for a given radio
choice.  For `"ALL"` the Python code calls `list_ok.remove("All_obs")`,
which raises `ValueError` when `"All_obs"` is not in the list; the
exception is modelled as `none`. -/
def get_listtoplot (joint_ks : KsTable) (choiceplot : String) :
    Option (List String) :=
  let list_ok := joint_ks.cols.filter (fun c => strContains c "All_obs")
  let listtoplot := joint_ks.cols.filter (fun c => !(list_ok.contains c))
  if choiceplot = "ALL" then
    if list_ok.contains "All_obs" then some (list_ok.erase "All_obs")
    else none
  else some listtoplot

/-- `s.split(" ")[0]` in Python: the characters before the first
space (the whole string when it has no space; empty when it starts
with one). -/
def firstToken (s : String) : String :=
  String.mk (s.toList.takeWhile (fun c => c ≠ ' '))

/-- The first whitespace-split token of an observation's
`active_obs_info` ratio string, compared with `"0"` in `get_zzdata`. -/
def activeFirstToken (active : String → String) (obs : String) : String :=
  firstToken (active obs)

/-- `get_zzdata`: the heatmap z matrix, rows indexed by `yy_data`,
columns by `xx_data`; a cell is blanked to `None` when the observation
has `0` active observations. -/
def get_zzdata (ksR : String → String → Rat) (yy_data xx_data : List String)
    (active : String → String) : List (List (Option Rat)) :=
  yy_data.map (fun y =>
    xx_data.map (fun x =>
      if activeFirstToken active x = "0" then none else some (ksR y x)))

/-- The plotted observation columns of `_update_graph`: `joint_ks`
restricted to `listtoplot` (`DataFrame.filter(items=...)` keeps the
requested labels that exist, then `sort_index(axis=1)` sorts them). -/
def sortedPlotCols (joint_ks : KsTable) (choiceplot : String) :
    Option (List String) :=
  (get_listtoplot joint_ks choiceplot).map
    (fun listtoplot =>
      sortBy strLe (listtoplot.filter (fun c => joint_ks.cols.contains c)))

/-- The data handed to the two heatmaps of `_update_graph`: axis labels,
the z matrix of the main KS heatmap, and the `All_obs` side strip. -/
structure GraphData where
  xx : List String
  yy : List String
  zz : List (List (Option Rat))
  zall : List Rat

/-- The z-data pipeline of `_update_graph` lines 138–158: read `ks.csv`,
replace NaN by 0, choose and sort the columns, filter axes by the two
substring filters, build the main z matrix via `get_zzdata`, and take
the `All_obs` column for the side strip (`joint_ks.loc[yy, ["All_obs"]]`
raises `KeyError`, modelled `none`, when that column is absent). -/
def updateGraphData (joint_ks : KsTable) (active : String → String)
    (input_filter_obs input_filter_param choiceplot : String) :
    Option GraphData :=
  (sortedPlotCols joint_ks choiceplot).bind (fun sortedCols =>
    let fobs := set_inputfilter input_filter_obs
    let fparam := set_inputfilter input_filter_param
    let xx := sortedCols.filter (fun c => strContains c fobs)
    let yy := joint_ks.idx.filter (fun r => strContains r fparam)
    if joint_ks.cols.contains "All_obs" then
      some { xx := xx, yy := yy
             zz := get_zzdata joint_ks.entryR yy xx active
             zall := yy.map (fun y => joint_ks.entryR y "All_obs") }
    else none)

/-- Rendering of a heatmap z cell in hover text: Python's `str` of the
float, `"None"` for the blanked cells. -/
def showZ : Option Rat → String
  | none => "None"
  | some q => toString q

/-- `hovertext_list`: the hover-text matrix, indexing the z matrix
positionally exactly as the Python double loop does. -/
def hovertext_list (xx_data yy_data : List String)
    (zz_data : List (List (Option Rat))) (active : String → String) :
    List (List String) :=
  yy_data.enum.map (fun py =>
    xx_data.enum.map (fun ox =>
      "Obs (" ++ active ox.2 ++ "): " ++ ox.2 ++ "<br />Param: " ++ py.2 ++
        "<br />Ks: " ++ showZ ((zz_data.getD py.1 []).getD ox.1 none)))

/-- What the `_update_graph` callback returns: the empty string when no
input directory is set, or a `dcc.Graph` whose payload is the heatmap
data, the two hover-text matrices and the initial `clickData` point. -/
inductive UpdateOutput
  | empty
  | graph (gd : GraphData) (text textall : List (List String))
      (clickX clickY : String)

/-- `_update_graph` after the input-directory check: builds the graph
data; `xx_data[0]` / `yy_data[0]` raise `IndexError` on an empty axis,
modelled as `none`. -/
def _update_graph_core (joint_ks : KsTable) (active : String → String)
    (input_filter_obs input_filter_param choiceplot : String) :
    Option UpdateOutput :=
  match updateGraphData joint_ks active input_filter_obs input_filter_param
      choiceplot with
  | none => none
  | some gd =>
    match gd.xx, gd.yy with
    | x0 :: _, y0 :: _ =>
      some (.graph gd (hovertext_list gd.xx gd.yy gd.zz active)
        (hovertext_list ["All_obs"] gd.yy (gd.zall.map (fun v => [some v]))
          active)
        x0 y0)
    | _, _ => none

/-- `prior.csv` as a dataframe: its column names (`keys()`) and its
columns.  Column access is modelled total; the claims never depend on a
missing-column lookup. -/
structure PriorDf where
  keys : List String
  col : String → List Rat

/-- A per-observation posterior CSV (`<obs>.csv`). -/
structure ObsDf where
  col : String → List Rat

/-- A `delta_field<param>.csv` grid: named numeric columns. -/
structure FieldGrid where
  cols : List (String × List Rat)

/-- One `go.Histogram` trace. -/
structure HistTrace where
  x : List Rat
  name : String
  nbinsx : Nat

/-- What the `_display_click_data` callback returns. -/
inductive ClickOutput
  | empty
  | scatterMap (grid : FieldGrid) (colorCol : String) (rangeMax : Rat)
      (title : String)
  | histogram (traces : List HistTrace) (title : String)
      (xaxisTitle : String)

/-- The parameter actually plotted by the histogram branch: under
`"TRANS"` the first `prior.csv` column containing `"_" + param`, when
one exists; otherwise the clicked parameter itself. -/
def resolved_param (prior : PriorDf) (hist_display param : String) : String :=
  if hist_display = "TRANS" then
    match prior.keys.filter (fun k => strContains k ("_" ++ param)) with
    | [] => param
    | p :: _ => p
  else param

/-- `_display_click_data` after the input-directory check.  The `FIELD`
branch returns the scatter map of the delta-field grid (`range_color`
upper bound is the maximum over the `Mean_` columns, the row-wise
`max(axis=1)` followed by `.max()` collapsed to one global maximum);
otherwise the two-trace prior/update histogram. -/
def _display_click_core (active : String → String) (prior : PriorDf)
    (obsCsv : String → ObsDf) (fieldGrid : String → FieldGrid)
    (obs param hist_display : String) : ClickOutput :=
  if strContains param "FIELD" then
    let fieldparam := param.replace "FIELD_" ""
    let grid := fieldGrid fieldparam
    .scatterMap grid ("Mean_D_" ++ obs)
      (listMax ((grid.cols.filter (fun c => strContains c.1 "Mean_")).map
        (fun c => listMax c.2)))
      ("Mean_delta_posterior-prior " ++ obs ++ " ," ++ param)
  else
    let p := resolved_param prior hist_display param
    .histogram [⟨prior.col p, "prior", 10⟩, ⟨(obsCsv obs).col p, "update", 10⟩]
      ("Parameter distribution for observation " ++ obs ++ " (" ++
        active obs ++ ")")
      p

/-- A `KsFilterRow` is one row of the `ks_filter` dataframe built by
`get_ks_filter`: `["Ks_value", "Obs", "Param", "Active Obs",
"Avg Obs misfit"]`. -/
structure KsFilterRow where
  ks_value : Rat
  obs : String
  param : List String
  active_obs : Int
  misfit : Rat

/-- Python `int(...)` on the first ratio token; a non-numeric string
would raise in Python, defaulted here (never hit by the claims). -/
def strToIntD (s : String) : Int := s.toInt?.getD 0

/-- `get_ks_filter`: one row per (plotted observation, cell of its
column), carrying the KS value, the observation, the list of index
labels holding that same value (`joint_ks[joint_ks[keyss]==indk].index`),
the active-observation count and the average misfit. -/
def get_ks_filter (listtoplot : List String) (active : String → String)
    (misfit : String → Rat) (joint_ks : KsTable) : List KsFilterRow :=
  listtoplot.flatMap (fun keyss =>
    (joint_ks.idx.map (fun p => joint_ks.entryR p keyss)).map (fun indk =>
      { ks_value := indk
        obs := keyss
        param := joint_ks.idx.filter
          (fun p => decide (joint_ks.entryR p keyss = indk))
        active_obs := strToIntD (activeFirstToken active keyss)
        misfit := misfit keyss }))

/-- The observation list `_generatetable` computes inline (lines
298–301): the non-`All_obs` columns, or for `"ALL"` every column whose
name contains `"All_obs"` — without the `remove("All_obs")` that
`get_listtoplot` performs. -/
def generatetableList (joint_ks : KsTable) (choiceplot : String) :
    List String :=
  let list_ok := joint_ks.cols.filter (fun c => strContains c "All_obs")
  let listtoplot := joint_ks.cols.filter (fun c => !(list_ok.contains c))
  if choiceplot = "ALL" then list_ok else listtoplot

/-- The `dash_table.DataTable` payload `_generatetable` returns. -/
structure DataTable where
  columns : List String
  data : List KsFilterRow
  page_size : Nat

/-- `_generatetable` after the input-directory check: build the KS
filter rows and sort them by KS value descending (`max_rows = 10` is
the callback's default page size). -/
def _generatetable_core (joint_ks : KsTable) (active : String → String)
    (misfit : String → Rat) (choiceplot : String) : DataTable :=
  let listtoplot := generatetableList joint_ks choiceplot
  let ks_filter := get_ks_filter listtoplot active misfit joint_ks
  let ks_filter_ok :=
    sortBy (fun a b => ratLe b.ks_value a.ks_value) ks_filter
  { columns := ["Ks_value", "Obs", "Param", "Active Obs", "Avg Obs misfit"]
    data := ks_filter_ok
    page_size := 10 }

/-- What `_generatetable` returns. -/
inductive TableOutput
  | empty
  | table (t : DataTable)

/-- The file environment the callbacks read: the `"ratio"` row of
`active_obs_info.csv`, `ks.csv`, the `"misfit"` row of
`misfit_obs_info.csv`, `prior.csv`, the per-observation posterior CSVs
and the delta-field grids. -/
structure Env where
  active : String → String
  ks : KsTable
  misfit : String → Rat
  prior : PriorDf
  obsCsv : String → ObsDf
  fieldGrid : String → FieldGrid

/-- The mutable attributes of an `AssistedHistoryMatchingAnalysis`
instance set by `__init__`. -/
structure PluginState where
  title : String
  input_dir : String

/-- `__init__`: store the title and the input directory, appending a
trailing slash when missing; `input_dir[-1]` raises `IndexError` on the
empty string, modelled as `none`. -/
def AHMAnalysis_init (input_dir title : String) : Option PluginState :=
  if input_dir = "" then none
  else some
    { title := title
      input_dir :=
        if input_dir.endsWith "/" then input_dir else input_dir ++ "/" }

/-- The `_update_graph` callback as a state-passing function: the
Python body assigns no attribute, so the state is returned as
received. -/
def _update_graph_cb (st : PluginState) (env : Env)
    (input_filter_obs input_filter_param choiceplot : String) :
    Option UpdateOutput × PluginState :=
  ((if st.input_dir = "" then some .empty
    else _update_graph_core env.ks env.active input_filter_obs
      input_filter_param choiceplot), st)

/-- The `_display_click_data` callback as a state-passing function. -/
def _display_click_data_cb (st : PluginState) (env : Env)
    (obs param hist_display : String) : ClickOutput × PluginState :=
  ((if st.input_dir = "" then .empty
    else _display_click_core env.active env.prior env.obsCsv env.fieldGrid
      obs param hist_display), st)

/-- The `_generatetable` callback as a state-passing function. -/
def _generatetable_cb (st : PluginState) (env : Env) (choiceplot : String) :
    TableOutput × PluginState :=
  ((if st.input_dir = "" then .empty
    else .table (_generatetable_core env.ks env.active env.misfit
      choiceplot)), st)

/-! ## The simulation time-series model
(`simulation_timeseries_model.py`)

The UNSMRY dataframe restricted to one selected vector is a list of
rows `(ENSEMBLE, REAL, DATE, value)`.  Since per-vector statistics of a
`groupby` commute with selecting the vector's column, this carries
exactly the data `add_statistic_traces` uses for one vector.  Styling
fields whose values come from modules outside the two source files
(`hex_to_rgb` colours, `get_simulation_line_shape`) are omitted from
the trace records, and the model dataframe holds no historical vector
column, so the `add_history_trace` branch does not fire. -/

/-- One row of the UNSMRY dataframe, with the selected vector's value. -/
structure SmryRow where
  ensemble : String
  real : Int
  date : String
  value : Rat

/-- The selected vector's values of the rows at one date, in row
order: the `DATE` group of a pandas `groupby`. -/
def valuesAt (rows : List SmryRow) (d : String) : List Rat :=
  (rows.filter (fun r => r.date == d)).map (fun r => r.value)

/-- The per-date statistics series handed to `add_fanchart_traces`
(`pd.concat(dframes, names=["STATISTIC"])[vector]`). -/
structure VectorStats where
  dates : List String
  mean : List Rat
  p10 : List Rat
  p90 : List Rat
  maximum : List Rat
  minimum : List Rat

/-- One plotly line trace of a fanchart. -/
structure Trace where
  name : String
  hovertext : String
  x : List String
  y : List Rat
  mode : String
  fill : Option String
  showlegend : Bool
  legendgroup : String

/-- `add_fanchart_traces`: the five statistic traces, in source order
Maximum, P10, Mean, P90, Minimum; only the Mean trace shows in the
legend, and all but the Maximum trace fill `"tonexty"`. -/
def add_fanchart_traces (vs : VectorStats) (legend_group : String) :
    List Trace :=
  [{ name := legend_group, hovertext := "Maximum", x := vs.dates,
     y := vs.maximum, mode := "lines", fill := none, showlegend := false,
     legendgroup := legend_group },
   { name := legend_group, hovertext := "P10", x := vs.dates,
     y := vs.p10, mode := "lines", fill := some "tonexty",
     showlegend := false, legendgroup := legend_group },
   { name := legend_group, hovertext := "Mean", x := vs.dates,
     y := vs.mean, mode := "lines", fill := some "tonexty",
     showlegend := true, legendgroup := legend_group },
   { name := legend_group, hovertext := "P90", x := vs.dates,
     y := vs.p90, mode := "lines", fill := some "tonexty",
     showlegend := false, legendgroup := legend_group },
   { name := legend_group, hovertext := "Minimum", x := vs.dates,
     y := vs.minimum, mode := "lines", fill := some "tonexty",
     showlegend := false, legendgroup := legend_group }]

/-- The `dframes` dictionary of `add_statistic_traces` for one
ensemble: group the ensemble's rows by `DATE` (ascending) and take the
per-date mean, the 10% and 90% linear-interpolation quantiles, the
maximum and the minimum of the selected vector. -/
def ensembleStats (ens_df : List SmryRow) : VectorStats :=
  let dates := sortedKeys (ens_df.map (fun r => r.date))
  { dates := dates
    mean := dates.map (fun d => meanRat (valuesAt ens_df d))
    p10 := dates.map (fun d => quantileRat (10 / 100) (valuesAt ens_df d))
    p90 := dates.map (fun d => quantileRat (90 / 100) (valuesAt ens_df d))
    maximum := dates.map (fun d => listMax (valuesAt ens_df d))
    minimum := dates.map (fun d => listMin (valuesAt ens_df d)) }

/-- `add_statistic_traces`: restrict to the requested ensembles, group
by `ENSEMBLE` (ascending key order), group each ensemble by `DATE`, and
emit the fanchart of the per-date mean, p10, p90, maximum and minimum
of the selected vector. -/
def add_statistic_traces (rows : List SmryRow) (ensembles : List String) :
    List Trace :=
  let dataframe := rows.filter (fun r => ensembles.contains r.ensemble)
  (sortedKeys (dataframe.map (fun r => r.ensemble))).flatMap (fun ensemble =>
    add_fanchart_traces
      (ensembleStats (dataframe.filter (fun r => r.ensemble == ensemble)))
      ensemble)

/-- One plotly realization line trace (dict fields that are absent in
one of the two producers are `Option`al). -/
structure RealTrace where
  x : List String
  y : List Rat
  hovertext : Option String
  hoverinfo : Option String
  name : String
  legendgroup : String
  customdata : Option Nat
  showlegend : Bool

/-- `add_ensset_realization_traces`: one line per realization of each
requested ensemble; `real_no` is the enumeration index inside the
ensemble, and only the first realization of each ensemble shows in the
legend. -/
def add_ensset_realization_traces (rows : List SmryRow)
    (ensembles : List String) : List RealTrace :=
  let dataframe := rows.filter (fun r => ensembles.contains r.ensemble)
  (sortedKeys (dataframe.map (fun r => r.ensemble))).flatMap (fun ensemble =>
    let ens_df := dataframe.filter (fun r => r.ensemble == ensemble)
    (sortedIntKeys (ens_df.map (fun r => r.real))).enum.map (fun rn =>
      let real_df := ens_df.filter (fun r => r.real == rn.2)
      { x := real_df.map (fun r => r.date)
        y := real_df.map (fun r => r.value)
        hovertext := some s!"Realization: {rn.1}, Ensemble: {ensemble}"
        hoverinfo := none
        name := ensemble
        legendgroup := ensemble
        customdata := none
        showlegend := rn.1 == 0 }))

/-- `add_realization_traces`: one line per realization of one ensemble,
optionally restricted by `real_filter`. -/
def add_realization_traces (rows : List SmryRow) (ensemble : String)
    (real_filter : Option (List Int)) : List RealTrace :=
  let df0 := rows.filter (fun r => r.ensemble == ensemble)
  let dataframe : List SmryRow :=
    match real_filter with
    | some f => df0.filter (fun r => f.contains r.real)
    | none => df0
  (sortedIntKeys (dataframe.map (fun r => r.real))).enum.map (fun rn =>
    let real_df := dataframe.filter (fun r => r.real == rn.2)
    { x := real_df.map (fun r => r.date)
      y := real_df.map (fun r => r.value)
      hovertext := none
      hoverinfo := some "skip"
      name := ensemble
      legendgroup := ensemble
      customdata := some rn.1
      showlegend := rn.1 == 0 })

/-! ### The constructor and its validation (`__init__`,
`_prepare_and_validate_data`)

For the frame-effect claim the dataframe is modelled structurally: an
association list of named columns of typed cells.  `self._dataframe =
dataframe` aliases the caller's object, so the dataframe the model
holds after `__init__` *is* the caller's; the constructor is embedded
as the function from the dataframe passed in to the dataframe the
caller observes afterwards (or the `KeyError` raised). -/

/-- A dataframe cell. -/
inductive CellValue
  | int (n : Int)
  | str (s : String)
  | rat (q : Rat)
deriving DecidableEq

/-- Python `str()` of a cell. -/
def cellStr : CellValue → String
  | .int n => toString n
  | .str s => s
  | .rat q => toString q

/-- One cell under `Series.astype(str)`. -/
def astypeStr (v : CellValue) : CellValue := .str (cellStr v)

/-- A dataframe: named columns in order. -/
structure DataFrame where
  cols : List (String × List CellValue)
deriving DecidableEq

/-- The column labels. -/
def DataFrame.columns (df : DataFrame) : List String :=
  df.cols.map (fun p => p.1)

/-- Look up a column by name. -/
def DataFrame.getCol (df : DataFrame) (c : String) :
    Option (List CellValue) :=
  (df.cols.find? (fun p => p.1 == c)).map (fun p => p.2)

/-- Replace a named column cell-wise, keeping its position (pandas
column item-assignment on an existing column). -/
def DataFrame.mapCol (df : DataFrame) (c : String)
    (f : CellValue → CellValue) : DataFrame :=
  ⟨df.cols.map (fun p => if p.1 == c then (p.1, p.2.map f) else p)⟩

/-- `_prepare_and_validate_data`: raise a self-constructed `KeyError`
for the first of `ENSEMBLE`, `REAL`, `DATE` missing, else convert the
`DATE` column to `str` in place.  The result is the dataframe as the
caller sees it afterwards. -/
def _prepare_and_validate_data (df : DataFrame) : Except String DataFrame :=
  if !(df.columns.contains "ENSEMBLE") then
    .error "ENSEMBLE column is missing from UNSMRY data"
  else if !(df.columns.contains "REAL") then
    .error "REAL column is missing from UNSMRY data"
  else if !(df.columns.contains "DATE") then
    .error "DATE column is missing from UNSMRY data"
  else .ok (df.mapCol "DATE" astypeStr)

/-- `SimulationTimeSeriesModel.__init__` seen through the caller's
aliased dataframe: it stores the reference and immediately runs
`_prepare_and_validate_data` on it. -/
def SimulationTimeSeriesModel_init (df : DataFrame) :
    Except String DataFrame :=
  _prepare_and_validate_data df

/-! ## The memoization decorator

`CACHE.memoize` comes from `webviz_config.common_cache`, outside the
two source files.  Modelled from the spec: a *transparent memoization
decorator*, i.e. a cache keyed on the call arguments that stores the
decorated function's results and replays them. -/

/-- First binding of a key in an argument-indexed cache. -/
def lookupArg {α β : Type} [DecidableEq α] : List (α × β) → α → Option β
  | [], _ => none
  | (k, v) :: rest, a => if k = a then some v else lookupArg rest a

/-- One memoized call: answer from the cache when the arguments were
seen, else compute and record. -/
def memoCall {α β : Type} [DecidableEq α] (f : α → β)
    (cache : List (α × β)) (a : α) : β × List (α × β) :=
  match lookupArg cache a with
  | some b => (b, cache)
  | none => (f a, (a, f a) :: cache)

/-- A sequence of memoized calls threading the cache. -/
def memoRun {α β : Type} [DecidableEq α] (f : α → β)
    (cache : List (α × β)) : List α → List β
  | [] => []
  | a :: as =>
    let r := memoCall f cache a
    r.1 :: memoRun f r.2 as

/-- A cache is consistent with `f` when every stored result is `f` of
its key. -/
def CacheConsistent {α β : Type} (f : α → β) (cache : List (α × β)) : Prop :=
  ∀ p, p ∈ cache → p.2 = f p.1

/-! ## Basic lemmas -/

theorem contains_iff_mem {α : Type} [BEq α] [LawfulBEq α] (l : List α)
    (a : α) : l.contains a = true ↔ a ∈ l :=
  List.elem_iff

theorem mem_insertSorted {α : Type} (le : α → α → Bool) (a b : α)
    (l : List α) : b ∈ insertSorted le a l ↔ b = a ∨ b ∈ l := by
  induction l with
  | nil => simp [insertSorted]
  | cons c cs ih =>
    simp only [insertSorted]
    split
    · simp [List.mem_cons]
    · simp only [List.mem_cons, ih]
      tauto

theorem mem_sortBy {α : Type} (le : α → α → Bool) (b : α) (l : List α) :
    b ∈ sortBy le l ↔ b ∈ l := by
  induction l with
  | nil => simp [sortBy]
  | cons a as ih => simp [sortBy, mem_insertSorted, ih]

theorem mem_sortedKeys (a : String) (l : List String) :
    a ∈ sortedKeys l ↔ a ∈ l := by
  simp [sortedKeys, mem_sortBy, List.mem_dedup]

/-! ## Claim C10: the table's observation list versus the heatmap's -/

/-- Claim C10 as stated: the observation list computed inline in
`_generatetable` always equals `get_listtoplot(joint_ks, choiceplot)`. -/
def C10Claim : Prop :=
  ∀ (joint_ks : KsTable) (choiceplot : String),
    get_listtoplot joint_ks choiceplot =
      some (generatetableList joint_ks choiceplot)

/-- A `ks.csv` with the `All_obs` summary column, one all-minus-one
column and one plain observation column. -/
def ksC10 : KsTable :=
  ⟨["All_obs", "All_obs-o1", "o1"], ["p"], fun _ _ => some 1⟩

/-- C10 counterexample: for choice `"ALL"` on `ksC10`, `get_listtoplot`
drops the `All_obs` column itself but the inline list of
`_generatetable` keeps it, so the two lists differ. -/
theorem C10_counterexample :
    get_listtoplot ksC10 "ALL" = some ["All_obs-o1"] ∧
    generatetableList ksC10 "ALL" = ["All_obs", "All_obs-o1"] ∧
    ¬ C10Claim :=
  ⟨rfl, rfl, fun h => absurd (h ksC10 "ALL") (by decide)⟩

/-- C10 (amended): for any choice other than `"ALL"` the two lists
agree; for `"ALL"`, `get_listtoplot` equals the inline list with the
first `"All_obs"` entry removed when that column exists (and raises
`ValueError`, modelled `none`, when it does not), so the table
additionally enumerates the `All_obs` column the heatmap excludes. -/
theorem C10_table_list_vs_heatmap_list (joint_ks : KsTable)
    (choiceplot : String) :
    get_listtoplot joint_ks choiceplot =
      if choiceplot = "ALL" then
        if "All_obs" ∈ joint_ks.cols then
          some ((generatetableList joint_ks choiceplot).erase "All_obs")
        else none
      else some (generatetableList joint_ks choiceplot) := by
  have hself : strContains "All_obs" "All_obs" = true := by decide
  unfold get_listtoplot generatetableList
  by_cases hc : choiceplot = "ALL"
  · subst hc
    simp only [if_pos rfl]
    by_cases hm : "All_obs" ∈ joint_ks.cols
    · have hcont :
          (joint_ks.cols.filter
            (fun c => strContains c "All_obs")).contains "All_obs" = true :=
        (contains_iff_mem _ _).mpr (List.mem_filter.mpr ⟨hm, hself⟩)
      simp [hcont, hm, hself]
    · have hcont :
          ¬ ((joint_ks.cols.filter
            (fun c => strContains c "All_obs")).contains "All_obs" = true) := by
        intro h
        exact hm (List.mem_filter.mp ((contains_iff_mem _ _).mp h)).1
      simp [hcont, hm]
  · simp [hc]

/-- Characterisation of a successful `_update_graph` data build: the
columns were resolved and sorted, `All_obs` is present, and the graph
data is exactly the filtered axes with their z matrices. -/
theorem updateGraphData_some (joint_ks : KsTable) (active : String → String)
    (fobs fparam choiceplot : String) (gd : GraphData)
    (h : updateGraphData joint_ks active fobs fparam choiceplot = some gd) :
    ∃ cols, sortedPlotCols joint_ks choiceplot = some cols ∧
      joint_ks.cols.contains "All_obs" = true ∧
      gd = { xx := cols.filter (fun c => strContains c (set_inputfilter fobs))
             yy := joint_ks.idx.filter
               (fun r => strContains r (set_inputfilter fparam))
             zz := get_zzdata joint_ks.entryR
               (joint_ks.idx.filter
                 (fun r => strContains r (set_inputfilter fparam)))
               (cols.filter (fun c => strContains c (set_inputfilter fobs)))
               active
             zall := (joint_ks.idx.filter
                 (fun r => strContains r (set_inputfilter fparam))).map
               (fun y => joint_ks.entryR y "All_obs") } := by
  unfold updateGraphData at h
  cases hsc : sortedPlotCols joint_ks choiceplot with
  | none => rw [hsc] at h; exact absurd h (by simp)
  | some cols =>
    rw [hsc] at h
    simp only [Option.some_bind] at h
    refine ⟨cols, rfl, ?_, ?_⟩ <;> split at h
    · assumption
    · exact absurd h (by simp)
    · cases h; rfl
    · exact absurd h (by simp)

/-! ## Claim C9: the empty input filter -/

/-- C9: `set_inputfilter` maps the empty string to `"_"` and keeps any
non-empty string; consequently with both filter boxes empty the KS
heatmap's axes enumerate exactly the plotted observation columns and
the parameter index labels whose names contain an underscore. -/
theorem C9_empty_filter_shows_underscored (s : String) (hs : s ≠ "")
    (joint_ks : KsTable) (active : String → String) (choiceplot : String)
    (cols : List String) (gd : GraphData)
    (hcols : sortedPlotCols joint_ks choiceplot = some cols)
    (hgd : updateGraphData joint_ks active "" "" choiceplot = some gd) :
    set_inputfilter "" = "_" ∧ set_inputfilter s = s ∧
    gd.xx = cols.filter (fun c => strContains c "_") ∧
    gd.yy = joint_ks.idx.filter (fun r => strContains r "_") := by
  obtain ⟨cols', hc', -, rfl⟩ :=
    updateGraphData_some joint_ks active "" "" choiceplot gd hgd
  rw [hcols] at hc'
  injection hc' with hc'
  subst hc'
  exact ⟨rfl, by simp [set_inputfilter, hs], rfl, rfl⟩

/-- A concrete table for the C9 witness: the plotted column `"a_b"`
contains an underscore, the index label `"r"` does not. -/
def ksC9 : KsTable := ⟨["All_obs", "a_b"], ["p_q", "r"], fun _ _ => some 0⟩

/-- Constant active-observation info for the C9 witness. -/
def actC9 : String → String := fun _ => "1 2"

/-- The graph data `_update_graph` builds on `ksC9` with empty filters. -/
def gdC9 : GraphData := ⟨["a_b"], ["p_q"], [[some 0]], [0]⟩

theorem C9_witness :
    ("x" ≠ "") ∧ sortedPlotCols ksC9 "ONE" = some ["a_b"] ∧
    updateGraphData ksC9 actC9 "" "" "ONE" = some gdC9 ∧
    (set_inputfilter "" = "_" ∧ set_inputfilter "x" = "x" ∧
     gdC9.xx = ["a_b"].filter (fun c => strContains c "_") ∧
     gdC9.yy = ksC9.idx.filter (fun r => strContains r "_")) :=
  ⟨by decide, rfl, rfl,
    C9_empty_filter_shows_underscored "x" (by decide) ksC9 actC9 "ONE"
      ["a_b"] gdC9 rfl rfl⟩

/-! ## Claim C2: heatmap z-values versus `ks.csv` -/

/-- Claim C2 as stated: every z-value the `_update_graph` pipeline
places in either heatmap is the corresponding `ks.csv` cell unchanged. -/
def C2Claim (joint_ks : KsTable) (active : String → String)
    (input_filter_obs input_filter_param choiceplot : String) : Prop :=
  ∀ gd, updateGraphData joint_ks active input_filter_obs input_filter_param
      choiceplot = some gd →
    (∀ (i j : Nat) (y x : String) (row : List (Option Rat))
        (v : Option Rat), gd.yy[i]? = some y → gd.xx[j]? = some x →
      gd.zz[i]? = some row → row[j]? = some v → v = joint_ks.entry y x) ∧
    (∀ (i : Nat) (y : String) (v : Rat), gd.yy[i]? = some y →
      gd.zall[i]? = some v → joint_ks.entry y "All_obs" = some v)

/-- A `ks.csv` whose single plain observation `"o"` has zero active
observations. -/
def ksC2 : KsTable := ⟨["All_obs", "o"], ["p"], fun _ _ => some (1/2)⟩

/-- Active-observation info reporting `0` active observations. -/
def actC2 : String → String := fun _ => "0 2"

/-- The graph data built from `ksC2`: the `0.5` cell was blanked. -/
def gdC2 : GraphData := ⟨["o"], ["p"], [[none]], [1/2]⟩

/-- C2 counterexample: `ks.csv` holds `0.5` at `("p", "o")`, but the
pipeline substitutes `None` because the observation has `0` active
observations — the z-value is not taken unchanged from the table. -/
theorem C2_counterexample :
    updateGraphData ksC2 actC2 "o" "p" "ONE" = some gdC2 ∧
    ksC2.entry "p" "o" = some (1/2) ∧ gdC2.zz = [[none]] ∧
    ¬ C2Claim ksC2 actC2 "o" "p" "ONE" := by
  refine ⟨rfl, rfl, rfl, fun h => ?_⟩
  have h2 := (h gdC2 rfl).1 0 0 "p" "o" [none] none rfl rfl rfl rfl
  exact absurd h2 (by decide)

/-- C2 (amended): every z-value of the main heatmap is either the
`ks.csv` cell unchanged, or `0.0` where the CSV cell is missing (the
`replace(np.nan, 0.0)`), or `None` where the cell's observation column
reports `0` active observations (the `get_zzdata` substitution); the
`All_obs` strip carries the CSV values with NaN replaced by `0.0`. -/
theorem C2_heatmap_values (joint_ks : KsTable) (active : String → String)
    (fobs fparam choiceplot : String) (gd : GraphData)
    (hgd : updateGraphData joint_ks active fobs fparam choiceplot = some gd) :
    (∀ (i j : Nat) (y x : String) (row : List (Option Rat))
        (v : Option Rat), gd.yy[i]? = some y → gd.xx[j]? = some x →
        gd.zz[i]? = some row → row[j]? = some v →
        (v = none ∧ activeFirstToken active x = "0") ∨
        (∃ q, v = some q ∧
          (joint_ks.entry y x = some q ∨
            (joint_ks.entry y x = none ∧ q = 0)))) ∧
    (∀ (i : Nat) (y : String) (v : Rat), gd.yy[i]? = some y →
      gd.zall[i]? = some v →
      joint_ks.entry y "All_obs" = some v ∨
        (joint_ks.entry y "All_obs" = none ∧ v = 0)) := by
  obtain ⟨cols, -, -, rfl⟩ :=
    updateGraphData_some joint_ks active fobs fparam choiceplot gd hgd
  constructor
  · intro i j y x row v hy hx hz hv
    dsimp only at hy hx hz
    simp only [get_zzdata, List.getElem?_map, hy, Option.map_some',
      Option.some.injEq] at hz
    subst hz
    rw [List.getElem?_map, hx, Option.map_some', Option.some.injEq] at hv
    subst hv
    by_cases ht : activeFirstToken active x = "0"
    · exact Or.inl ⟨by simp [ht], ht⟩
    · refine Or.inr ⟨joint_ks.entryR y x, by simp [ht], ?_⟩
      cases he : joint_ks.entry y x with
      | none => exact Or.inr ⟨rfl, by simp [KsTable.entryR, he]⟩
      | some q => exact Or.inl (by simp [KsTable.entryR, he])
  · intro i y v hy hv
    dsimp only at hy hv
    rw [List.getElem?_map, hy, Option.map_some', Option.some.injEq] at hv
    subst hv
    cases he : joint_ks.entry y "All_obs" with
    | none => exact Or.inr ⟨rfl, by simp [KsTable.entryR, he]⟩
    | some q => exact Or.inl (by simp [KsTable.entryR, he])

/-- A table for the C2 witness whose observation is active. -/
def ksC2w : KsTable := ⟨["All_obs", "o_1"], ["p_1"], fun _ _ => some (1/3)⟩

/-- Active-observation info with `2` active observations. -/
def actC2w : String → String := fun _ => "2 5"

/-- The graph data built from `ksC2w`. -/
def gdC2w : GraphData := ⟨["o_1"], ["p_1"], [[some (1/3)]], [1/3]⟩

theorem C2_witness :
    updateGraphData ksC2w actC2w "o" "p" "ONE" = some gdC2w ∧
    gdC2w.yy[0]? = some "p_1" ∧ gdC2w.xx[0]? = some "o_1" ∧
    gdC2w.zz[0]? = some [some (1/3)] ∧
    ([some ((1 : Rat)/3)][0]? = some (some (1/3))) ∧
    ((some ((1 : Rat)/3) = none ∧ activeFirstToken actC2w "o_1" = "0") ∨
      (∃ q, some ((1 : Rat)/3) = some q ∧
        (ksC2w.entry "p_1" "o_1" = some q ∨
          (ksC2w.entry "p_1" "o_1" = none ∧ q = 0)))) :=
  ⟨rfl, rfl, rfl, rfl, rfl,
    (C2_heatmap_values ksC2w actC2w "o" "p" "ONE" gdC2w rfl).1 0 0
      "p_1" "o_1" [some (1/3)] (some (1/3)) rfl rfl rfl rfl⟩

/-! ## Claim C4: self-constructed exceptions -/

/-- Claim C4 as stated, at the routine its sources cite: no input makes
`_prepare_and_validate_data` raise an exception of its own
construction. -/
def C4Claim : Prop :=
  ∀ (df : DataFrame) (e : String),
    _prepare_and_validate_data df ≠ Except.error e

/-- C4 counterexample: on a dataframe with no columns the routine
raises the `KeyError` it itself constructs. -/
theorem C4_counterexample :
    _prepare_and_validate_data ⟨[]⟩ =
      Except.error "ENSEMBLE column is missing from UNSMRY data" ∧
    ¬ C4Claim :=
  ⟨rfl, fun h =>
    h ⟨[]⟩ "ENSEMBLE column is missing from UNSMRY data" rfl⟩

/-- C4 (amended): `_prepare_and_validate_data` raises a
self-constructed `KeyError` exactly when one of `ENSEMBLE`, `REAL`,
`DATE` is missing, and the message is always one of the three
`"... column is missing from UNSMRY data"` strings; on a dataframe with
all three columns no self-constructed exception is raised. -/
theorem C4_validation_error_characterisation (df : DataFrame) :
    ((∃ d, _prepare_and_validate_data df = Except.ok d) ↔
      ("ENSEMBLE" ∈ df.columns ∧ "REAL" ∈ df.columns ∧
        "DATE" ∈ df.columns)) ∧
    (∀ e, _prepare_and_validate_data df = Except.error e →
      e = "ENSEMBLE column is missing from UNSMRY data" ∨
      e = "REAL column is missing from UNSMRY data" ∨
      e = "DATE column is missing from UNSMRY data") := by
  by_cases h1 : "ENSEMBLE" ∈ df.columns <;>
    by_cases h2 : "REAL" ∈ df.columns <;>
      by_cases h3 : "DATE" ∈ df.columns <;>
        simp [_prepare_and_validate_data, List.contains, List.elem_iff,
          h1, h2, h3]

/-- A dataframe with only an `ENSEMBLE` column, for the C4 witness. -/
def dfC4 : DataFrame := ⟨[("ENSEMBLE", [])]⟩

theorem C4_witness :
    _prepare_and_validate_data dfC4 =
      Except.error "REAL column is missing from UNSMRY data" ∧
    ("REAL column is missing from UNSMRY data" =
        "ENSEMBLE column is missing from UNSMRY data" ∨
      "REAL column is missing from UNSMRY data" =
        "REAL column is missing from UNSMRY data" ∨
      "REAL column is missing from UNSMRY data" =
        "DATE column is missing from UNSMRY data") :=
  ⟨rfl, (C4_validation_error_characterisation dfC4).2
    "REAL column is missing from UNSMRY data" rfl⟩

/-! ## Claim C8: the constructor mutates the caller's dataframe -/

theorem mapCol_columns (df : DataFrame) (c : String)
    (f : CellValue → CellValue) : (df.mapCol c f).columns = df.columns := by
  unfold DataFrame.mapCol DataFrame.columns
  rw [List.map_map]
  apply List.map_congr_left
  intro p _
  dsimp only [Function.comp]
  split <;> rfl

theorem find?_map_mapCol (c c' : String) (f : CellValue → CellValue)
    (l : List (String × List CellValue)) :
    ((l.map (fun p => if p.1 == c then (p.1, p.2.map f) else p)).find?
        (fun p => p.1 == c')).map (fun p => p.2) =
      if c' = c then
        ((l.find? (fun p => p.1 == c')).map (fun p => p.2)).map (List.map f)
      else (l.find? (fun p => p.1 == c')).map (fun p => p.2) := by
  induction l with
  | nil =>
    simp only [List.map_nil, List.find?_nil, Option.map_none']
    split <;> rfl
  | cons p ps ih =>
    simp only [List.map_cons, List.find?_cons]
    by_cases h1 : p.1 = c
    · by_cases h2 : p.1 = c'
      · have hcc : c' = c := h2.symm.trans h1
        simp [h1, h2, hcc]
      · have hcc : ¬ (c' = c) := fun hh => h2 (h1.trans hh.symm)
        have hb : (c == c') = false :=
          beq_eq_false_iff_ne.mpr (fun hh => hcc hh.symm)
        simpa [h1, h2, hcc, hb] using ih
    · by_cases h2 : p.1 = c'
      · by_cases hcc : c' = c
        · exact absurd (h2.trans hcc) h1
        · simp [h1, h2, hcc]
      · have hb2 : (p.1 == c') = false := beq_eq_false_iff_ne.mpr h2
        simpa [h1, h2, hb2] using ih

theorem getCol_mapCol (df : DataFrame) (c c' : String)
    (f : CellValue → CellValue) :
    (df.mapCol c f).getCol c' =
      if c' = c then (df.getCol c').map (List.map f) else df.getCol c' := by
  obtain ⟨l⟩ := df
  unfold DataFrame.mapCol DataFrame.getCol
  dsimp only
  exact find?_map_mapCol c c' f l

/-- C8: a successful construction of `SimulationTimeSeriesModel` leaves
the caller holding a dataframe with the same columns, whose `DATE`
column has every cell converted to its `str` rendering, and whose
other columns are untouched. -/
theorem C8_init_mutates_date_column (df df' : DataFrame)
    (h : SimulationTimeSeriesModel_init df = Except.ok df') :
    df'.columns = df.columns ∧
    df'.getCol "DATE" = (df.getCol "DATE").map (List.map astypeStr) ∧
    (∀ c, c ≠ "DATE" → df'.getCol c = df.getCol c) := by
  unfold SimulationTimeSeriesModel_init _prepare_and_validate_data at h
  split at h
  · exact absurd h (by simp)
  · split at h
    · exact absurd h (by simp)
    · split at h
      · exact absurd h (by simp)
      · cases h
        refine ⟨mapCol_columns df "DATE" astypeStr, ?_, ?_⟩
        · rw [getCol_mapCol]
          simp
        · intro c hc
          rw [getCol_mapCol]
          simp [hc]

/-- A well-formed UNSMRY dataframe for the C8 witness. -/
def dfC8 : DataFrame :=
  ⟨[("ENSEMBLE", [.str "e"]), ("REAL", [.int 0]), ("DATE", [.int 3]),
    ("FOPT", [.rat 1])]⟩

/-- `dfC8` as the caller sees it after `__init__`: `DATE` stringified. -/
def dfC8' : DataFrame :=
  ⟨[("ENSEMBLE", [.str "e"]), ("REAL", [.int 0]), ("DATE", [.str "3"]),
    ("FOPT", [.rat 1])]⟩

theorem C8_witness :
    SimulationTimeSeriesModel_init dfC8 = Except.ok dfC8' ∧
    (dfC8'.columns = dfC8.columns ∧
     dfC8'.getCol "DATE" = (dfC8.getCol "DATE").map (List.map astypeStr) ∧
     (∀ c, c ≠ "DATE" → dfC8'.getCol c = dfC8.getCol c)) :=
  ⟨rfl, C8_init_mutates_date_column dfC8 dfC8' rfl⟩

/-! ## Claim C5: scatter map iff `FIELD`, else a two-trace histogram -/

/-- C5: with a non-empty input directory, `_display_click_data` returns
a scatter map exactly when the clicked parameter name contains
`"FIELD"`, and otherwise a histogram with exactly two traces, the first
the prior and the second the update (posterior) distribution of the
(possibly transformation-resolved) clicked parameter. -/
theorem C5_click_data_shape (st : PluginState) (env : Env)
    (obs param hist_display : String) (h : st.input_dir ≠ "") :
    ((∃ grid cc rm t,
        (_display_click_data_cb st env obs param hist_display).1 =
          ClickOutput.scatterMap grid cc rm t) ↔
      strContains param "FIELD" = true) ∧
    (strContains param "FIELD" = false →
      (_display_click_data_cb st env obs param hist_display).1 =
        ClickOutput.histogram
          [⟨env.prior.col (resolved_param env.prior hist_display param),
            "prior", 10⟩,
           ⟨(env.obsCsv obs).col (resolved_param env.prior hist_display param),
            "update", 10⟩]
          ("Parameter distribution for observation " ++ obs ++ " (" ++
            env.active obs ++ ")")
          (resolved_param env.prior hist_display param)) := by
  have hcb : (_display_click_data_cb st env obs param hist_display).1 =
      _display_click_core env.active env.prior env.obsCsv env.fieldGrid
        obs param hist_display := by
    unfold _display_click_data_cb
    dsimp only
    rw [if_neg h]
  rw [hcb]
  unfold _display_click_core
  by_cases hf : strContains param "FIELD" = true
  · rw [if_pos hf]
    constructor
    · exact ⟨fun _ => hf, fun _ => ⟨_, _, _, _, rfl⟩⟩
    · intro hff
      rw [hf] at hff
      cases hff
  · rw [if_neg hf]
    constructor
    · constructor
      · rintro ⟨g, cc, rm, t, he⟩
        cases he
      · intro h'
        exact absurd h' hf
    · intro _
      rfl

/-- Plugin state for the C5 witness. -/
def stC5 : PluginState := ⟨"Data analytics: what affects what", "share/"⟩

/-- Environment for the C5 witness. -/
def envC5 : Env :=
  ⟨fun _ => "1 1", ⟨["All_obs"], ["p"], fun _ _ => some 0⟩, fun _ => 0,
    ⟨["LOG10_PARAM"], fun _ => [1, 2]⟩, fun _ => ⟨fun _ => [3]⟩,
    fun _ => ⟨[]⟩⟩

theorem C5_witness :
    (stC5.input_dir ≠ "") ∧
    (((∃ grid cc rm t,
        (_display_click_data_cb stC5 envC5 "o" "PARAM" "DFLT").1 =
          ClickOutput.scatterMap grid cc rm t) ↔
      strContains "PARAM" "FIELD" = true) ∧
    (strContains "PARAM" "FIELD" = false →
      (_display_click_data_cb stC5 envC5 "o" "PARAM" "DFLT").1 =
        ClickOutput.histogram
          [⟨envC5.prior.col (resolved_param envC5.prior "DFLT" "PARAM"),
            "prior", 10⟩,
           ⟨(envC5.obsCsv "o").col (resolved_param envC5.prior "DFLT" "PARAM"),
            "update", 10⟩]
          ("Parameter distribution for observation " ++ "o" ++ " (" ++
            envC5.active "o" ++ ")")
          (resolved_param envC5.prior "DFLT" "PARAM"))) :=
  ⟨by decide, C5_click_data_shape stC5 envC5 "o" "PARAM" "DFLT" (by decide)⟩

/-! ## Claim C6: callbacks leave the plugin state unchanged -/

/-- C6: each of the three callbacks returns the plugin state it was
given — in particular `title` and `input_dir` are preserved — and a
second invocation from the state a first invocation left behind
returns the same output as an invocation from the original state: no
state is persisted between invocations. -/
theorem C6_callbacks_preserve_state (st : PluginState) (env env2 : Env)
    (fobs fparam choice fobs2 fparam2 choice2 : String)
    (obs param hist obs2 param2 hist2 tchoice tchoice2 : String) :
    ((_update_graph_cb st env fobs fparam choice).2 = st ∧
     (_display_click_data_cb st env obs param hist).2 = st ∧
     (_generatetable_cb st env tchoice).2 = st) ∧
    ((_update_graph_cb st env fobs fparam choice).2.title = st.title ∧
     (_update_graph_cb st env fobs fparam choice).2.input_dir =
       st.input_dir) ∧
    ((_update_graph_cb (_update_graph_cb st env fobs fparam choice).2
        env2 fobs2 fparam2 choice2).1 =
      (_update_graph_cb st env2 fobs2 fparam2 choice2).1 ∧
     (_display_click_data_cb (_display_click_data_cb st env obs param hist).2
        env2 obs2 param2 hist2).1 =
      (_display_click_data_cb st env2 obs2 param2 hist2).1 ∧
     (_generatetable_cb (_generatetable_cb st env tchoice).2 env2 tchoice2).1 =
      (_generatetable_cb st env2 tchoice2).1) :=
  ⟨⟨rfl, rfl, rfl⟩, ⟨rfl, rfl⟩, ⟨rfl, rfl, rfl⟩⟩

/-! ## Claim C7: callbacks are deterministic in their inputs -/

/-- C7: each callback's output is a function of the CSV files it reads
and its filter/choice inputs alone: two environments agreeing on the
files a callback reads give equal outputs, for equal inputs. -/
theorem C7_callbacks_deterministic (st : PluginState)
    (e1 e2 e3 e4 e5 e6 : Env)
    (fobs fparam choice tchoice obs param hist : String)
    (h1 : e1.ks = e2.ks) (h2 : e1.active = e2.active)
    (h3 : e3.ks = e4.ks) (h4 : e3.active = e4.active)
    (h5 : e3.misfit = e4.misfit)
    (h6 : e5.active = e6.active) (h7 : e5.prior = e6.prior)
    (h8 : e5.obsCsv = e6.obsCsv) (h9 : e5.fieldGrid = e6.fieldGrid) :
    _update_graph_cb st e1 fobs fparam choice =
      _update_graph_cb st e2 fobs fparam choice ∧
    _generatetable_cb st e3 tchoice = _generatetable_cb st e4 tchoice ∧
    _display_click_data_cb st e5 obs param hist =
      _display_click_data_cb st e6 obs param hist := by
  unfold _update_graph_cb _generatetable_cb _display_click_data_cb
  rw [h1, h2, h3, h4, h5, h6, h7, h8, h9]
  exact ⟨rfl, rfl, rfl⟩

/-- Plugin state for the C7 witness. -/
def stC7 : PluginState := ⟨"Data analytics: what affects what", "share/"⟩

/-- Shared pieces of the C7 witness environments. -/
def actC7 : String → String := fun _ => "1 1"

/-- A `ks.csv` for the C7 witness. -/
def ksC7 : KsTable := ⟨["All_obs"], ["p"], fun _ _ => some 0⟩

/-- An alternative `ks.csv` the click callback never reads. -/
def ksC7b : KsTable := ⟨[], [], fun _ _ => none⟩

/-- A `prior.csv` for the C7 witness. -/
def priorC7 : PriorDf := ⟨["a"], fun _ => [1]⟩

/-- An alternative `prior.csv` the graph and table callbacks never
read. -/
def priorC7b : PriorDf := ⟨["b"], fun _ => [3]⟩

/-- Posterior CSVs for the C7 witness. -/
def obsC7 : String → ObsDf := fun _ => ⟨fun _ => [2]⟩

/-- Delta-field grids for the C7 witness. -/
def gridC7 : String → FieldGrid := fun _ => ⟨[]⟩

/-- C7 witness environments: each pair differs only in files the
respective callback does not read. -/
def envC7a : Env := ⟨actC7, ksC7, fun _ => 0, priorC7, obsC7, gridC7⟩

/-- Differs from `envC7a` in `misfit` and `prior`. -/
def envC7b : Env := ⟨actC7, ksC7, fun _ => 1, priorC7b, obsC7, gridC7⟩

/-- Differs from `envC7a` in `prior` only. -/
def envC7c : Env := ⟨actC7, ksC7, fun _ => 0, priorC7b, obsC7, gridC7⟩

/-- Differs from `envC7a` in `ks` and `misfit`. -/
def envC7d : Env := ⟨actC7, ksC7b, fun _ => 1, priorC7, obsC7, gridC7⟩

theorem C7_witness :
    (envC7a.ks = envC7b.ks ∧ envC7a.active = envC7b.active ∧
     envC7a.ks = envC7c.ks ∧ envC7a.active = envC7c.active ∧
     envC7a.misfit = envC7c.misfit ∧
     envC7a.active = envC7d.active ∧ envC7a.prior = envC7d.prior ∧
     envC7a.obsCsv = envC7d.obsCsv ∧ envC7a.fieldGrid = envC7d.fieldGrid) ∧
    (_update_graph_cb stC7 envC7a "" "" "ONE" =
      _update_graph_cb stC7 envC7b "" "" "ONE" ∧
     _generatetable_cb stC7 envC7a "ONE" =
      _generatetable_cb stC7 envC7c "ONE" ∧
     _display_click_data_cb stC7 envC7a "o" "p" "DFLT" =
      _display_click_data_cb stC7 envC7d "o" "p" "DFLT") :=
  ⟨⟨rfl, rfl, rfl, rfl, rfl, rfl, rfl, rfl, rfl⟩,
    C7_callbacks_deterministic stC7 envC7a envC7b envC7a envC7c envC7a envC7d
      "" "" "ONE" "ONE" "o" "p" "DFLT" rfl rfl rfl rfl rfl rfl rfl rfl rfl⟩

/-! ## Claim C3: the memoization decorator is behaviour-transparent -/

theorem lookupArg_eq {α β : Type} [DecidableEq α] (f : α → β)
    (cache : List (α × β)) (hc : CacheConsistent f cache) (a : α) (b : β)
    (h : lookupArg cache a = some b) : b = f a := by
  induction cache with
  | nil => simp [lookupArg] at h
  | cons p ps ih =>
    unfold lookupArg at h
    split at h
    · rename_i heq
      rw [Option.some.injEq] at h
      subst h
      rw [← heq]
      exact hc p (List.mem_cons_self p ps)
    · exact ih (fun q hq => hc q (List.mem_cons_of_mem p hq)) h

theorem memoCall_correct {α β : Type} [DecidableEq α] (f : α → β)
    (cache : List (α × β)) (hc : CacheConsistent f cache) (a : α) :
    (memoCall f cache a).1 = f a ∧
    CacheConsistent f (memoCall f cache a).2 := by
  unfold memoCall
  cases hl : lookupArg cache a with
  | none =>
    refine ⟨rfl, fun p hp => ?_⟩
    rcases List.mem_cons.mp hp with h | h
    · rw [h]
    · exact hc p h
  | some b => exact ⟨lookupArg_eq f cache hc a b hl, hc⟩

theorem memoRun_eq_map {α β : Type} [DecidableEq α] (f : α → β)
    (cache : List (α × β)) (hc : CacheConsistent f cache) (as : List α) :
    memoRun f cache as = as.map f := by
  induction as generalizing cache with
  | nil => rfl
  | cons a as ih =>
    obtain ⟨h1, h2⟩ := memoCall_correct f cache hc a
    unfold memoRun
    dsimp only
    rw [h1, ih _ h2, List.map_cons]

/-- C3: running any sequence of calls to the three memoized operations
through the cache, starting from an empty cache, yields exactly the
results of the undecorated computations: memoization is
behaviour-transparent. -/
theorem C3_memoization_transparent (rows : List SmryRow)
    (calls1 calls2 : List (List String))
    (calls3 : List (String × Option (List Int))) :
    memoRun (fun ensembles => add_statistic_traces rows ensembles) []
        calls1 =
      calls1.map (fun ensembles => add_statistic_traces rows ensembles) ∧
    memoRun (fun ensembles => add_ensset_realization_traces rows ensembles)
        [] calls2 =
      calls2.map
        (fun ensembles => add_ensset_realization_traces rows ensembles) ∧
    memoRun (fun p => add_realization_traces rows p.1 p.2) [] calls3 =
      calls3.map (fun p => add_realization_traces rows p.1 p.2) :=
  ⟨memoRun_eq_map _ _ (fun p hp => absurd hp (List.not_mem_nil p)) _,
   memoRun_eq_map _ _ (fun p hp => absurd hp (List.not_mem_nil p)) _,
   memoRun_eq_map _ _ (fun p hp => absurd hp (List.not_mem_nil p)) _⟩

/-! ## Claim C1: the statistic fanchart traces -/

theorem filter_ensembles_filter_eq (rows : List SmryRow)
    (ensembles : List String) (e : String) (he : e ∈ ensembles) :
    (rows.filter (fun r => ensembles.contains r.ensemble)).filter
        (fun r => r.ensemble == e) =
      rows.filter (fun r => r.ensemble == e) := by
  induction rows with
  | nil => rfl
  | cons r rs ih =>
    simp only [List.filter_cons]
    cases hcb : ensembles.contains r.ensemble with
    | false =>
      have hr : (r.ensemble == e) = false := by
        refine beq_eq_false_iff_ne.mpr (fun hh => ?_)
        rw [hh, (contains_iff_mem ensembles e).mpr he] at hcb
        cases hcb
      rw [if_neg (by simp), ih, if_neg (by simp [hr])]
    | true =>
      rw [if_pos rfl, List.filter_cons]
      by_cases hr : r.ensemble = e
      · have hb : (r.ensemble == e) = true := beq_iff_eq.mpr hr
        rw [if_pos hb, if_pos hb, ih]
      · have hb : (r.ensemble == e) = false := beq_eq_false_iff_ne.mpr hr
        rw [if_neg (by simp [hb]), if_neg (by simp [hb]), ih]

theorem mem_groupKeys (rows : List SmryRow) (ensembles : List String)
    (e : String) (he : e ∈ ensembles) (r0 : SmryRow) (hr0 : r0 ∈ rows)
    (hr0e : r0.ensemble = e) :
    e ∈ sortedKeys ((rows.filter
      (fun r => ensembles.contains r.ensemble)).map (fun r => r.ensemble)) := by
  rw [mem_sortedKeys]
  refine List.mem_map.mpr ⟨r0, ?_, hr0e⟩
  exact List.mem_filter.mpr ⟨hr0, (contains_iff_mem _ _).mpr (hr0e ▸ he)⟩

/-- C1: for a requested ensemble `e` present in the model's rows,
`add_statistic_traces` contains the five fanchart traces of `e` —
Maximum, P10, Mean, P90, Minimum — and at every position `i` of `e`'s
sorted date axis the y-value of each is the corresponding statistic
(mean, 10% quantile, 90% quantile, maximum, minimum) of the vector over
`e`'s rows at that date. -/
theorem C1_statistic_traces (rows : List SmryRow) (ensembles : List String)
    (e : String) (he : e ∈ ensembles)
    (r0 : SmryRow) (hr0 : r0 ∈ rows) (hr0e : r0.ensemble = e)
    (i : Nat) (d : String)
    (hd : (sortedKeys ((rows.filter (fun r => r.ensemble == e)).map
      (fun r => r.date)))[i]? = some d) :
    ∃ tmax tp10 tmean tp90 tmin : Trace,
      tmax ∈ add_statistic_traces rows ensembles ∧
      tp10 ∈ add_statistic_traces rows ensembles ∧
      tmean ∈ add_statistic_traces rows ensembles ∧
      tp90 ∈ add_statistic_traces rows ensembles ∧
      tmin ∈ add_statistic_traces rows ensembles ∧
      (tmax.name = e ∧ tp10.name = e ∧ tmean.name = e ∧ tp90.name = e ∧
        tmin.name = e) ∧
      (tmax.hovertext = "Maximum" ∧ tp10.hovertext = "P10" ∧
        tmean.hovertext = "Mean" ∧ tp90.hovertext = "P90" ∧
        tmin.hovertext = "Minimum") ∧
      tmean.y[i]? =
        some (meanRat (valuesAt (rows.filter (fun r => r.ensemble == e)) d)) ∧
      tp10.y[i]? = some (quantileRat (10 / 100)
        (valuesAt (rows.filter (fun r => r.ensemble == e)) d)) ∧
      tp90.y[i]? = some (quantileRat (90 / 100)
        (valuesAt (rows.filter (fun r => r.ensemble == e)) d)) ∧
      tmax.y[i]? =
        some (listMax (valuesAt (rows.filter (fun r => r.ensemble == e)) d)) ∧
      tmin.y[i]? =
        some (listMin (valuesAt (rows.filter (fun r => r.ensemble == e)) d)) := by
  have hmem : ∀ t, t ∈ add_fanchart_traces
      (ensembleStats (rows.filter (fun r => r.ensemble == e))) e →
      t ∈ add_statistic_traces rows ensembles := by
    intro t ht
    unfold add_statistic_traces
    dsimp only
    refine List.mem_flatMap.mpr
      ⟨e, mem_groupKeys rows ensembles e he r0 hr0 hr0e, ?_⟩
    rw [filter_ensembles_filter_eq rows ensembles e he]
    exact ht
  have hy : ∀ f : String → Rat,
      ((sortedKeys ((rows.filter (fun r => r.ensemble == e)).map
        (fun r => r.date))).map f)[i]? = some (f d) := by
    intro f
    rw [List.getElem?_map, hd, Option.map_some']
  refine ⟨
    { name := e, hovertext := "Maximum",
      x := (ensembleStats (rows.filter (fun r => r.ensemble == e))).dates,
      y := (ensembleStats (rows.filter (fun r => r.ensemble == e))).maximum,
      mode := "lines", fill := none, showlegend := false, legendgroup := e },
    { name := e, hovertext := "P10",
      x := (ensembleStats (rows.filter (fun r => r.ensemble == e))).dates,
      y := (ensembleStats (rows.filter (fun r => r.ensemble == e))).p10,
      mode := "lines", fill := some "tonexty", showlegend := false,
      legendgroup := e },
    { name := e, hovertext := "Mean",
      x := (ensembleStats (rows.filter (fun r => r.ensemble == e))).dates,
      y := (ensembleStats (rows.filter (fun r => r.ensemble == e))).mean,
      mode := "lines", fill := some "tonexty", showlegend := true,
      legendgroup := e },
    { name := e, hovertext := "P90",
      x := (ensembleStats (rows.filter (fun r => r.ensemble == e))).dates,
      y := (ensembleStats (rows.filter (fun r => r.ensemble == e))).p90,
      mode := "lines", fill := some "tonexty", showlegend := false,
      legendgroup := e },
    { name := e, hovertext := "Minimum",
      x := (ensembleStats (rows.filter (fun r => r.ensemble == e))).dates,
      y := (ensembleStats (rows.filter (fun r => r.ensemble == e))).minimum,
      mode := "lines", fill := some "tonexty", showlegend := false,
      legendgroup := e },
    hmem _ (by unfold add_fanchart_traces; simp),
    hmem _ (by unfold add_fanchart_traces; simp),
    hmem _ (by unfold add_fanchart_traces; simp),
    hmem _ (by unfold add_fanchart_traces; simp),
    hmem _ (by unfold add_fanchart_traces; simp),
    ⟨rfl, rfl, rfl, rfl, rfl⟩, ⟨rfl, rfl, rfl, rfl, rfl⟩,
    ?_, ?_, ?_, ?_, ?_⟩
  all_goals
    dsimp only [ensembleStats]
    exact hy _

/-- A two-realization, one-date ensemble for the C1 witness. -/
def rowsC1 : List SmryRow := [⟨"ens", 0, "d", 1⟩, ⟨"ens", 1, "d", 3⟩]

theorem C1_witness :
    ("ens" ∈ ["ens"]) ∧ ((⟨"ens", 0, "d", 1⟩ : SmryRow) ∈ rowsC1) ∧
    ((⟨"ens", 0, "d", 1⟩ : SmryRow).ensemble = "ens") ∧
    ((sortedKeys ((rowsC1.filter (fun r => r.ensemble == "ens")).map
      (fun r => r.date)))[0]? = some "d") ∧
    (∃ tmax tp10 tmean tp90 tmin : Trace,
      tmax ∈ add_statistic_traces rowsC1 ["ens"] ∧
      tp10 ∈ add_statistic_traces rowsC1 ["ens"] ∧
      tmean ∈ add_statistic_traces rowsC1 ["ens"] ∧
      tp90 ∈ add_statistic_traces rowsC1 ["ens"] ∧
      tmin ∈ add_statistic_traces rowsC1 ["ens"] ∧
      (tmax.name = "ens" ∧ tp10.name = "ens" ∧ tmean.name = "ens" ∧
        tp90.name = "ens" ∧ tmin.name = "ens") ∧
      (tmax.hovertext = "Maximum" ∧ tp10.hovertext = "P10" ∧
        tmean.hovertext = "Mean" ∧ tp90.hovertext = "P90" ∧
        tmin.hovertext = "Minimum") ∧
      tmean.y[0]? = some (meanRat
        (valuesAt (rowsC1.filter (fun r => r.ensemble == "ens")) "d")) ∧
      tp10.y[0]? = some (quantileRat (10 / 100)
        (valuesAt (rowsC1.filter (fun r => r.ensemble == "ens")) "d")) ∧
      tp90.y[0]? = some (quantileRat (90 / 100)
        (valuesAt (rowsC1.filter (fun r => r.ensemble == "ens")) "d")) ∧
      tmax.y[0]? = some (listMax
        (valuesAt (rowsC1.filter (fun r => r.ensemble == "ens")) "d")) ∧
      tmin.y[0]? = some (listMin
        (valuesAt (rowsC1.filter (fun r => r.ensemble == "ens")) "d"))) :=
  ⟨List.mem_cons_self _ _, List.mem_cons_self _ _, rfl, rfl,
    C1_statistic_traces rowsC1 ["ens"] "ens" (List.mem_cons_self _ _)
      ⟨"ens", 0, "d", 1⟩ (List.mem_cons_self _ _) rfl 0 "d" rfl⟩

end Webviz
